import Mathlib

/-!
# Verification of `azure-openai-cost-estimator`

A shallow embedding of `src/AzureOpenAICostEstimator.ts` (the class
`AzureOpenAICostEstimator`): model-name canonicalization (`canonicalModelId`,
`extractModelKey`), price-list normalization (`fetchPricing`), the region
pricing cache (`ensurePricing`) and the cost calculator (the body of
`estimateCost`).

Modelling conventions:
- JS strings are Lean `String`s processed as their `List Char` data; the
  JS `toLowerCase()` is modelled by `Char.toLower` per character (the inputs
  of interest are ASCII, where the two agree).
- The three regular expressions of the source are modelled by hand-rolled
  matchers with JS semantics: leftmost match, greedy/lazy quantifiers and
  `\b` word boundaries, specialised to the concrete patterns in the source.
- JS numbers are modelled as `ℚ`; `+x.toFixed(6)` is modelled by `toFixed6`
  (round to nearest at 6 decimals, ties toward positive infinity, which is
  the rounding `Number.prototype.toFixed` specifies on the decimal value).
- The `Map`/`Record` objects are association lists with in-place update
  (`mapGet`/`mapSet`), matching JS insertion-order semantics.
- Network I/O is abstracted: the paginated fetch is a parameter
  `fetchItems : String → List RawItem` giving the concatenated `Items`
  arrays for a region; `Date.now()` is an explicit `now : Int` argument.
-/

/-- One character of `String.toLowerCase`, ASCII fragment (`Char.toLower`). -/
def lowerStr (s : String) : String := ⟨s.data.map Char.toLower⟩

/-- JS `\w` character class: `[A-Za-z0-9_]`. -/
def isWordChar (c : Char) : Bool := c.isAlphanum || c = '_'

/-- Does `hay` start with `needle`? (lists of characters) -/
def startsWithL : List Char → List Char → Bool
  | [], _ => true
  | _ :: _, [] => false
  | n :: ns, h :: hs => n = h && startsWithL ns hs

/-- JS `String.prototype.includes`: does `hay` contain `needle` as a substring? -/
def containsSub (needle : List Char) : List Char → Bool
  | [] => needle.isEmpty
  | c :: hs => startsWithL needle (c :: hs) || containsSub needle hs

/-- Attempt of the regex `\bo[- ]?([0-9]+)(?:[- ]mini)?` at the current
position; `prevIsWord` tells whether the preceding character is a word
character (for the `\b`).  Returns the captured digit run. -/
def oFamilyAt (prevIsWord : Bool) : List Char → Option (List Char)
  | 'o' :: rest =>
    if prevIsWord then none
    else
      match rest with
      | [] => none
      | c :: rest2 =>
        if c = '-' || c = ' ' then
          let ds := rest2.takeWhile Char.isDigit
          if ds.isEmpty then none else some ds
        else
          let ds := (c :: rest2).takeWhile Char.isDigit
          if ds.isEmpty then none else some ds
  | _ => none

/-- Leftmost match of `/\bo[- ]?([0-9]+)(?:[- ]mini)?/` (the source applies it
to already-lowercased text, so the `i` flag is immaterial): scan positions
left to right, first success wins. -/
def oFamilyScan (prevIsWord : Bool) : List Char → Option (List Char)
  | [] => none
  | c :: rest =>
    match oFamilyAt prevIsWord (c :: rest) with
    | some ds => some ds
    | none => oFamilyScan (isWordChar c) rest

/-- JS `ver.replace('.', '')` with a string pattern: remove the first `'.'`. -/
def removeFirstDot : List Char → List Char
  | [] => []
  | '.' :: rest => rest
  | c :: rest => c :: removeFirstDot rest

/-- The version group `([34](?:\.5)?)` of the GPT regex, greedy on `.5`.
Returns the captured characters and the remainder. -/
def gptVer : List Char → Option (List Char × List Char)
  | '3' :: '.' :: '5' :: rest => some (['3', '.', '5'], rest)
  | '3' :: rest => some (['3'], rest)
  | '4' :: '.' :: '5' :: rest => some (['4', '.', '5'], rest)
  | '4' :: rest => some (['4'], rest)
  | _ => none

/-- The optional group `(?:[ -]turbo)?`, greedy: consume it when present. -/
def gptTurbo (l : List Char) : List Char :=
  match l with
  | '-' :: 't' :: 'u' :: 'r' :: 'b' :: 'o' :: rest => rest
  | ' ' :: 't' :: 'u' :: 'r' :: 'b' :: 'o' :: rest => rest
  | _ => l

/-- The trailing `(?:.*?)(32k|16k|8k|1106|0125|o)?` of the GPT regex.  The
lazy `.*?` followed by an optional group never expands (the optional group
can always match empty), so the context suffix is captured only when one of
the alternatives matches immediately; it is returned with its leading `-`
as built by `extractModelKey`, else empty. -/
def gptCtx (l : List Char) : List Char :=
  if startsWithL "32k".data l then "-32k".data
  else if startsWithL "16k".data l then "-16k".data
  else if startsWithL "8k".data l then "-8k".data
  else if startsWithL "1106".data l then "-1106".data
  else if startsWithL "0125".data l then "-0125".data
  else if startsWithL "o".data l then "-o".data
  else []

/-- Attempt of `/gpt[- ]?([34](?:\.5)?)(?:[ -]turbo)?(?:.*?)(32k|16k|8k|1106|0125|o)?/`
at the current position.  Returns the version with its dot removed and the
context suffix (the `-${ctx}` part), i.e. the pieces of the produced key.
The greedy `[- ]?` never needs backtracking: the separator characters are
disjoint from `[34]`. -/
def gptAt : List Char → Option (List Char × List Char)
  | 'g' :: 'p' :: 't' :: rest =>
    let afterSep :=
      match rest with
      | '-' :: r => r
      | ' ' :: r => r
      | _ => rest
    match gptVer afterSep with
    | none => none
    | some (ver, r2) => some (removeFirstDot ver, gptCtx (gptTurbo r2))
  | _ => none

/-- Leftmost match of the GPT regex. -/
def gptScan : List Char → Option (List Char × List Char)
  | [] => none
  | c :: rest =>
    match gptAt (c :: rest) with
    | some r => some r
    | none => gptScan rest

/-- The alternation `(ada|babbage|curie|davinci|gecko)` at the current position. -/
def famAt (l : List Char) : Option (List Char) :=
  if startsWithL "ada".data l then some "ada".data
  else if startsWithL "babbage".data l then some "babbage".data
  else if startsWithL "curie".data l then some "curie".data
  else if startsWithL "davinci".data l then some "davinci".data
  else if startsWithL "gecko".data l then some "gecko".data
  else none

/-- JS `.` (no `s` flag): any character except line terminators. -/
def dotChar (c : Char) : Bool :=
  !(c = '\n' || c = '\r' || c = Char.ofNat 0x2028 || c = Char.ofNat 0x2029)

/-- The `.*(ada|…)` tail of the embedding regex: greedy `.*` backtracks from
the end, so the capture is at the last position reachable through `.`
characters where a family name matches. -/
def embedTail : List Char → Option (List Char)
  | [] => none
  | c :: rest =>
    if dotChar c then
      match embedTail rest with
      | some f => some f
      | none => famAt (c :: rest)
    else famAt (c :: rest)

/-- Attempt of `/embedding.*(ada|babbage|curie|davinci|gecko)/` at the current
position. -/
def embedAt (l : List Char) : Option (List Char) :=
  if startsWithL "embedding".data l then embedTail (l.drop 9) else none

/-- Leftmost match of the embedding regex. -/
def embedScan : List Char → Option (List Char)
  | [] => none
  | c :: rest =>
    match embedAt (c :: rest) with
    | some f => some f
    | none => embedScan rest

/-- One character of `.replace(/[^a-z0-9]/g, '-')` (input already lowercased). -/
def sanitizeChar (c : Char) : Char := if c.isLower || c.isDigit then c else '-'

/-- The `.replace` with the global regex "--+" (two or more hyphens) and
replacement `'-'`: collapse every run of two or more hyphens. -/
def collapseHyphens : List Char → List Char
  | [] => []
  | [c] => [c]
  | c :: d :: rest =>
    if c = '-' && d = '-' then collapseHyphens (d :: rest)
    else c :: collapseHyphens (d :: rest)

/-- The `^-` half of `.replace(/^-|-\$/g, '')`: `^` only matches at index 0,
so at most one leading hyphen is removed. -/
def stripLeadingHyphen : List Char → List Char
  | '-' :: rest => rest
  | l => l

/-- The `-\$` half of `.replace(/^-|-\$/g, '')`: the escaped dollar is the
literal character `'$'`, so this deletes occurrences of the two-character
substring `-$` (which cannot occur after sanitization) — it is NOT an
end-of-string anchor. -/
def removeHyphenDollar : List Char → List Char
  | [] => []
  | [c] => [c]
  | c :: d :: rest =>
    if c = '-' && d = '$' then removeHyphenDollar rest
    else c :: removeHyphenDollar (d :: rest)

/-- The fallback chain of `canonicalModelId`: lowercase, then the three
`.replace` calls — sanitize `[^a-z0-9]` to hyphens, collapse hyphen runs,
then the `^-`-or-`-\$` removal. -/
def fallbackId (model : List Char) : List Char :=
  removeHyphenDollar (stripLeadingHyphen (collapseHyphens
    ((model.map Char.toLower).map sanitizeChar)))

/-- `canonicalModelId` of the source on character lists: o-family rule, then
the GPT-3.5 spellings `gpt-3.5`/`gpt3.5`, then the fallback chain. -/
def canonicalModelIdL (model : List Char) : List Char :=
  let modelLower := model.map Char.toLower
  match oFamilyScan false modelLower with
  | some version =>
    'o' :: version ++ (if containsSub "mini".data modelLower then "-mini".data else [])
  | none =>
    if containsSub "gpt-3.5".data modelLower || containsSub "gpt3.5".data modelLower then
      "gpt-35-turbo".data
    else fallbackId model

/-- `private canonicalModelId(model: string): string` of the source. -/
def canonicalModelId (model : String) : String := ⟨canonicalModelIdL model.data⟩

/-- `extractModelKey` of the source on character lists: the combined
`${meterName} ${skuName}` text lowercased, then o-family rule, the vendor
GPT-3.5 spellings `gpt-35`/`gpt35`, the generic GPT regex, the embedding
regex, and the `dall-e` containment check; `none` models the `null` return. -/
def extractModelKeyL (meterName skuName : List Char) : Option (List Char) :=
  let src := (meterName ++ ' ' :: skuName).map Char.toLower
  match oFamilyScan false src with
  | some version =>
    some ('o' :: version ++ (if containsSub "mini".data src then "-mini".data else []))
  | none =>
    if containsSub "gpt-35".data src || containsSub "gpt35".data src then
      some "gpt-35-turbo".data
    else
      match gptScan src with
      | some (ver, ctx) => some ("gpt-".data ++ ver ++ ctx)
      | none =>
        match embedScan src with
        | some fam => some ("text-embedding-".data ++ fam)
        | none =>
          if containsSub "dall-e".data src then some "dall-e".data else none

/-- `private extractModelKey(meterName: string, skuName: string): string | null`. -/
def extractModelKey (meterName skuName : String) : Option String :=
  (extractModelKeyL meterName.data skuName.data).map fun l => ⟨l⟩

example : canonicalModelId "o3" = "o3" := rfl
example : canonicalModelId "OpenAI-o3" = "o3" := rfl
example : canonicalModelId "o 3 mini" = "o3-mini" := rfl
example : canonicalModelId "dall-e-3" = "dall-e-3" := rfl
example : canonicalModelId "gpt-3.5-turbo" = "gpt-35-turbo" := rfl
example : canonicalModelId "gpt35" = "gpt35" := rfl
example : canonicalModelId "llama!" = "llama-" := rfl
example : extractModelKey "DALL-E Image" "DALL-E" = some "dall-e" := rfl
example : extractModelKey "GPT-3.5 Prompt Tokens" "Standard" = some "gpt-35" := rfl
example : extractModelKey "GPT-35-Turbo Prompt Tokens" "Standard" = some "gpt-35-turbo" := rfl
example : extractModelKey "O3-Mini Prompt Tokens" "O3-Mini" = some "o3-mini" := rfl
example : extractModelKey "Text embedding ada" "Text Embedding" = some "text-embedding-ada" := rfl
example : extractModelKey "GPT-4 Prompt Tokens" "GPT-4" = some "gpt-4" := rfl
example : extractModelKey "Fine Tuning" "Standard" = none := rfl

-- The rational arithmetic of Batteries is irreducible by default; the
-- concrete evaluations below need it to reduce definitionally.
attribute [local semireducible] Rat.add Rat.sub Rat.mul Rat.inv Rat.ofScientific

/-- `type PriceMeters`: up to three optional unit prices (modelled in `ℚ`). -/
structure PriceMeters where
  inputUsd : Option ℚ
  outputUsd : Option ℚ
  imageUsd : Option ℚ
deriving DecidableEq

/-- One record of the price list body (`Items` array): `meterName`, `skuName`
and `unitPrice` are all optional in the source's `AzurePriceApiResponse`. -/
structure RawItem where
  meterName : Option String
  skuName : Option String
  unitPrice : Option ℚ
deriving DecidableEq

/-- `interface CachedRegionPricing`: fetch time (epoch ms as `Int`) and the
normalized model table (association list for `Record<string, PriceMeters>`). -/
structure CachedRegionPricing where
  fetchedAt : Int
  meters : List (String × PriceMeters)
deriving DecidableEq

/-- `interface CostInput`. -/
structure CostInput where
  region : String
  model : String
  promptTokens : Option ℚ
  completionTokens : Option ℚ
  imageCount : Option ℚ
deriving DecidableEq

/-- The two `throw new Error(...)` sites of `estimateCost`, distinguished by
their message template. -/
inductive EstimateError where
  | pricingNotFound (message : String)
  | unsupportedInput (message : String)
deriving DecidableEq

/-- Lookup in a JS `Map`/`Record` modelled as an association list. -/
def mapGet {α : Type} : List (String × α) → String → Option α
  | [], _ => none
  | (k2, v) :: rest, k => if k2 = k then some v else mapGet rest k

/-- Update in a JS `Map`/`Record`: replace in place if the key exists,
otherwise append. -/
def mapSet {α : Type} : List (String × α) → String → α → List (String × α)
  | [], k, v => [(k, v)]
  | (k2, v2) :: rest, k, v =>
    if k2 = k then (k, v) :: rest else (k2, v2) :: mapSet rest k v

/-- JS `+x.toFixed(6)` on the ideal (rational) value: round to the nearest
multiple of 10⁻⁶, ties toward positive infinity (the rounding
`Number.prototype.toFixed` specifies picks the larger candidate on a tie). -/
def toFixed6 (q : ℚ) : ℚ := ((q * 1000000 + 1 / 2).floor : ℚ) / 1000000

/-- Modelled from the spec's words (the claim about rounding): "rounded to 6
decimal places (fixed-point truncation at that precision)" — truncation
toward negative infinity at 6 decimals, for comparison with `toFixed6`. -/
def truncate6 (q : ℚ) : ℚ := ((q * 1000000).floor : ℚ) / 1000000

/-- The message of the final `throw` of `estimateCost`. -/
def unsupportedMsg : String := "Unable to determine cost – unsupported input combination."

/-- The `Pricing for model "X" not found in region "Y".` message template. -/
def pricingNotFoundMsg (model region : String) : String :=
  "Pricing for model \"" ++ model ++ "\" not found in region \"" ++ region ++ "\"."

/-- The cost computation of `estimateCost` once the meters for the canonical
key are at hand: the text branch, the embedding branch, the image branch,
then the defensive `throw`. -/
def computeCost (meters : PriceMeters) (input : CostInput) : Except EstimateError ℚ :=
  if meters.inputUsd.isSome then
    Except.ok (toFixed6 ((input.promptTokens.getD 0) / 1000 * (meters.inputUsd.getD 0)
      + (input.completionTokens.getD 0) / 1000 * (meters.outputUsd.getD 0)))
  else if meters.outputUsd.isNone && meters.imageUsd.isNone then
    Except.ok (toFixed6 ((input.promptTokens.getD 0) / 1000 * (meters.inputUsd.getD 0)))
  else if meters.imageUsd.isSome then
    Except.ok (toFixed6 ((input.imageCount.getD 1) * (meters.imageUsd.getD 0)))
  else
    Except.error (EstimateError.unsupportedInput unsupportedMsg)

/-- The model lookup of `estimateCost`: canonicalize the user model string,
look it up in the region table, and either fail with `PricingNotFound`
(carrying the original model string and the passed region) or compute. -/
def modelCost (meters : List (String × PriceMeters)) (region : String)
    (input : CostInput) : Except EstimateError ℚ :=
  match mapGet meters (canonicalModelId input.model) with
  | none => Except.error (EstimateError.pricingNotFound (pricingNotFoundMsg input.model region))
  | some m => computeCost m input

/-- One iteration of the normalization loop of `fetchPricing`: default the
raw fields, derive the canonical key (skip if unrecognized), initialise the
entry if absent, and classify the billing dimension by keyword in the meter
name — image (price divided by 100), input/prompt, output/completion,
embedding; a record with a recognized key but no keyword leaves the entry
as initialised. -/
def processItem (meters : List (String × PriceMeters)) (item : RawItem) :
    List (String × PriceMeters) :=
  let meterName := item.meterName.getD ""
  let skuName := item.skuName.getD ""
  let pricePerUnit := item.unitPrice.getD 0
  match extractModelKey meterName skuName with
  | none => meters
  | some modelKey =>
    let meterLower := meterName.data.map Char.toLower
    let cur := (mapGet meters modelKey).getD (PriceMeters.mk none none none)
    let upd :=
      if containsSub "image".data meterLower then
        { cur with imageUsd := some (pricePerUnit / 100) }
      else if containsSub "input".data meterLower || containsSub "prompt".data meterLower then
        { cur with inputUsd := some pricePerUnit }
      else if containsSub "output".data meterLower || containsSub "completion".data meterLower then
        { cur with outputUsd := some pricePerUnit }
      else if containsSub "embedding".data meterLower then
        { cur with inputUsd := some pricePerUnit }
      else cur
    mapSet meters modelKey upd

/-- The normalization part of `private fetchPricing`: the paginated transport
is abstracted away, `items` being the concatenation of all fetched `Items`
arrays; the result is the `modelId → PriceMeters` table. -/
def fetchPricing (items : List RawItem) : List (String × PriceMeters) :=
  items.foldl processItem []

/-- `private ensurePricing(region)`: reuse a cache entry younger than the
TTL, otherwise fetch and overwrite the entry wholesale with the new table
stamped `now`.  The returned `Bool` records whether a fetch was issued. -/
def ensurePricing (cacheTTL : Int) (fetchItems : String → List RawItem)
    (cache : List (String × CachedRegionPricing)) (region : String) (now : Int) :
    List (String × CachedRegionPricing) × Bool :=
  match mapGet cache region with
  | some cached =>
    if now - cached.fetchedAt < cacheTTL then (cache, false)
    else (mapSet cache region (CachedRegionPricing.mk now (fetchPricing (fetchItems region))), true)
  | none => (mapSet cache region (CachedRegionPricing.mk now (fetchPricing (fetchItems region))), true)

/-- `async estimateCost(input)`: lowercase the region, ensure fresh pricing
for it, then look up and compute.  Returns the updated cache, whether a
fetch was issued, and the result. -/
def estimateCost (cacheTTL : Int) (fetchItems : String → List RawItem)
    (cache : List (String × CachedRegionPricing)) (now : Int) (input : CostInput) :
    List (String × CachedRegionPricing) × Bool × Except EstimateError ℚ :=
  let region := lowerStr input.region
  let ep := ensurePricing cacheTTL fetchItems cache region now
  let pricing := (mapGet ep.1 region).getD (CachedRegionPricing.mk 0 [])
  (ep.1, ep.2, modelCost pricing.meters region input)

/-- Decidable equality for `Except` results, used to evaluate the model on
concrete inputs. -/
instance {ε α : Type} [DecidableEq ε] [DecidableEq α] : DecidableEq (Except ε α) := fun a b =>
  match a, b with
  | Except.ok x, Except.ok y =>
    if h : x = y then Decidable.isTrue (by rw [h])
    else Decidable.isFalse (fun he => by cases he; exact h rfl)
  | Except.error x, Except.error y =>
    if h : x = y then Decidable.isTrue (by rw [h])
    else Decidable.isFalse (fun he => by cases he; exact h rfl)
  | Except.ok _, Except.error _ => Decidable.isFalse (fun he => by cases he)
  | Except.error _, Except.ok _ => Decidable.isFalse (fun he => by cases he)

example :
    fetchPricing [RawItem.mk (some "GPT-4 Prompt Tokens") (some "GPT-4") (some (3/100)),
      RawItem.mk (some "GPT-4 Completion Tokens") (some "GPT-4") (some (6/100)),
      RawItem.mk (some "DALL-E Image") (some "DALL-E") (some 20)]
    = [("gpt-4", PriceMeters.mk (some (3/100)) (some (6/100)) none),
       ("dall-e", PriceMeters.mk none none (some (1/5)))] := by decide

example :
    computeCost (PriceMeters.mk (some (3/100)) (some (6/100)) none)
      (CostInput.mk "eastus" "gpt-4" (some 500) (some 200) none) = Except.ok (27/1000) := by decide

example :
    computeCost (PriceMeters.mk none none none)
      (CostInput.mk "eastus" "x" (some 100) none none) = Except.ok 0 := by decide

example :
    computeCost (PriceMeters.mk none none (some (1/5)))
      (CostInput.mk "eastus" "dall-e" none none (some 5)) = Except.ok 1 := by decide

example :
    (estimateCost 1000 (fun _ => []) [] 0 (CostInput.mk "EastUS" "mystery-model" none none none)).2.2
    = Except.error (EstimateError.pricingNotFound
        "Pricing for model \"mystery-model\" not found in region \"eastus\".") := by decide

theorem char_toNat_ofNat_valid (n : Nat) (h : n.isValidChar) : (Char.ofNat n).toNat = n := by
  rw [Char.ofNat, dif_pos h]
  rfl

theorem char_toLower_idem (c : Char) : c.toLower.toLower = c.toLower := by
  simp only [Char.toLower]
  by_cases h : c.toNat ≥ 65 ∧ c.toNat ≤ 90
  · rw [if_pos h, char_toNat_ofNat_valid (c.toNat + 32) (Or.inl (by omega))]
    rw [if_neg (by omega)]
  · rw [if_neg h, if_neg h]

theorem lowerStr_idem (s : String) : lowerStr (lowerStr s) = lowerStr s := by
  unfold lowerStr
  refine congrArg String.mk ?_
  rw [List.map_map]
  exact List.map_congr_left fun c _ => char_toLower_idem c

theorem mapGet_mapSet_self {α : Type} (m : List (String × α)) (k : String) (v : α) :
    mapGet (mapSet m k v) k = some v := by
  induction m with
  | nil => simp [mapGet, mapSet]
  | cons p rest ih =>
    obtain ⟨k2, v2⟩ := p
    by_cases h : k2 = k
    · simp [mapGet, mapSet, h]
    · simp [mapGet, mapSet, h, ih]

theorem modelCost_notFound_msg (ms : List (String × PriceMeters)) (r : String)
    (i : CostInput) (msg : String)
    (h : modelCost ms r i = Except.error (EstimateError.pricingNotFound msg)) :
    msg = pricingNotFoundMsg i.model r := by
  unfold modelCost at h
  cases hm : mapGet ms (canonicalModelId i.model) with
  | none =>
    rw [hm] at h
    simp only [Except.error.injEq, EstimateError.pricingNotFound.injEq] at h
    exact h.symm
  | some m =>
    rw [hm] at h
    have h2 : computeCost m i = Except.error (EstimateError.pricingNotFound msg) := h
    unfold computeCost at h2
    split_ifs at h2
    simp_all

/-- C1: the DALL-E rule is claimed for both canonicalization paths, but the
user-input path (`canonicalModelId`) has no DALL-E rule at all: the
documented input "dall-e-3" falls through to the fallback and yields
"dall-e-3", while the vendor path keys the table as "dall-e" — the two
paths disagree on DALL-E models. -/
theorem c1_dalle_rule_user_path_bug :
    canonicalModelId "dall-e-3" = "dall-e-3" ∧
    extractModelKey "DALL-E Image" "DALL-E" = some "dall-e" ∧
    ("dall-e-3" : String) ≠ "dall-e" :=
  ⟨rfl, rfl, by decide⟩

/-- C2: on the user-input path, all listed spellings of o3 canonicalize to
"o3" and all listed spellings of o3-mini canonicalize to "o3-mini". -/
theorem c2_o_family_variants_agree :
    canonicalModelId "o3" = "o3" ∧ canonicalModelId "O3" = "o3" ∧
    canonicalModelId "o-3" = "o3" ∧ canonicalModelId "o 3" = "o3" ∧
    canonicalModelId "OpenAI-o3" = "o3" ∧ canonicalModelId "openai.o3" = "o3" ∧
    canonicalModelId "o3-mini" = "o3-mini" ∧ canonicalModelId "o3mini" = "o3-mini" ∧
    canonicalModelId "o-3-mini" = "o3-mini" ∧ canonicalModelId "o 3 mini" = "o3-mini" :=
  ⟨rfl, rfl, rfl, rfl, rfl, rfl, rfl, rfl, rfl, rfl⟩

/-- C3 counterexample: the claim's universal GPT-3.5 rule fails on both
paths — the user path does not recognize the spelling "gpt35" (it falls
through to the fallback), and the vendor path sends text containing
"gpt-3.5" to the generic GPT rule, which produces "gpt-35", not
"gpt-35-turbo". -/
theorem c3_gpt35_spelling_counterexample :
    canonicalModelId "gpt35" = "gpt35" ∧ ("gpt35" : String) ≠ "gpt-35-turbo" ∧
    extractModelKey "GPT-3.5 Prompt Tokens" "Standard" = some "gpt-35" ∧
    (some "gpt-35" : Option String) ≠ some "gpt-35-turbo" :=
  ⟨rfl, by decide, rfl, by decide⟩

/-- C3 amended: each path maps its own pair of spellings to the key
"gpt-35-turbo" (when the o-family rule did not match first): the user path
recognizes texts containing "gpt-3.5" or "gpt3.5", the vendor path
recognizes texts containing "gpt-35" or "gpt35". -/
theorem c3_gpt35_rule_amended (m mn sn : String)
    (h1 : oFamilyScan false (m.data.map Char.toLower) = none)
    (h2 : containsSub "gpt-3.5".data (m.data.map Char.toLower) = true
        ∨ containsSub "gpt3.5".data (m.data.map Char.toLower) = true)
    (h3 : oFamilyScan false ((mn.data ++ ' ' :: sn.data).map Char.toLower) = none)
    (h4 : containsSub "gpt-35".data ((mn.data ++ ' ' :: sn.data).map Char.toLower) = true
        ∨ containsSub "gpt35".data ((mn.data ++ ' ' :: sn.data).map Char.toLower) = true) :
    canonicalModelId m = "gpt-35-turbo" ∧ extractModelKey mn sn = some "gpt-35-turbo" := by
  constructor
  · show String.mk (canonicalModelIdL m.data) = "gpt-35-turbo"
    simp only [canonicalModelIdL, h1]
    rcases h2 with h2 | h2 <;> simp [h2]
  · show (extractModelKeyL mn.data sn.data).map (fun l => String.mk l) = some "gpt-35-turbo"
    simp only [List.map_append, List.map_cons, show Char.toLower ' ' = ' ' from rfl] at h3 h4
    simp only [extractModelKeyL, List.map_append, List.map_cons, h3]
    rcases h4 with h4 | h4 <;> simp [h3, h4]

/-- C3 witness: the amended rule at the concrete inputs "gpt-3.5-turbo"
(user path) and the GPT-35-Turbo vendor meter text. -/
theorem c3_gpt35_rule_amended_witness :
    canonicalModelId "gpt-3.5-turbo" = "gpt-35-turbo" ∧
    extractModelKey "GPT-35-Turbo Prompt Tokens" "Standard" = some "gpt-35-turbo" :=
  c3_gpt35_rule_amended "gpt-3.5-turbo" "GPT-35-Turbo Prompt Tokens" "Standard"
    (by decide) (Or.inl (by decide)) (by decide) (Or.inl (by decide))

/-- C4: a cache entry fetched at time `T` is reused unmodified (no fetch)
by any request at `now` with `now - T < ttl`; when the entry is absent or
`now - T ≥ ttl`, the entry is replaced wholesale with the timestamp `now`
and the freshly fetched table — never merged with the old one. -/
theorem c4_cache_ttl_reuse_replace (ttl : Int) (F : String → List RawItem)
    (cache : List (String × CachedRegionPricing)) (r : String) (T now : Int)
    (tbl : List (String × PriceMeters)) :
    (mapGet cache r = some (CachedRegionPricing.mk T tbl) → now - T < ttl →
      ensurePricing ttl F cache r now = (cache, false)) ∧
    (mapGet cache r = none
        ∨ (mapGet cache r = some (CachedRegionPricing.mk T tbl) ∧ ttl ≤ now - T) →
      ensurePricing ttl F cache r now
        = (mapSet cache r (CachedRegionPricing.mk now (fetchPricing (F r))), true)) := by
  constructor
  · intro h hfresh
    unfold ensurePricing
    rw [h]
    simp [hfresh]
  · intro h
    unfold ensurePricing
    rcases h with h | ⟨h, hstale⟩
    · rw [h]
    · rw [h]
      simp [not_lt.mpr hstale]

/-- C4 witness: a fresh entry (age 5 < TTL 10) is reused with no fetch; a
stale entry (age 10 ≥ TTL 10) and an absent entry are both replaced. -/
theorem c4_cache_ttl_reuse_replace_witness :
    ensurePricing 10 (fun _ => []) [("eastus", CachedRegionPricing.mk 0 [])] "eastus" 5
      = ([("eastus", CachedRegionPricing.mk 0 [])], false) ∧
    ensurePricing 10 (fun _ => []) [("eastus", CachedRegionPricing.mk 0 [])] "eastus" 10
      = (mapSet [("eastus", CachedRegionPricing.mk 0 [])] "eastus"
          (CachedRegionPricing.mk 10 (fetchPricing [])), true) ∧
    ensurePricing 10 (fun _ => []) [] "eastus" 0
      = (mapSet [] "eastus" (CachedRegionPricing.mk 0 (fetchPricing [])), true) :=
  ⟨(c4_cache_ttl_reuse_replace 10 (fun _ => []) [("eastus", CachedRegionPricing.mk 0 [])]
      "eastus" 0 5 []).1 (by decide) (by decide),
   (c4_cache_ttl_reuse_replace 10 (fun _ => []) [("eastus", CachedRegionPricing.mk 0 [])]
      "eastus" 0 10 []).2 (Or.inr ⟨by decide, by decide⟩),
   (c4_cache_ttl_reuse_replace 10 (fun _ => []) [] "eastus" 0 0 []).2 (Or.inl (by decide))⟩

/-- C5 counterexample: the claimed rounding mode is wrong — `toFixed(6)`
rounds to nearest, not fixed-point truncation.  With inputUsd 0.0019 and
one prompt token the exact cost is 0.0000019: the code returns 0.000002,
while truncation at 6 decimals would give 0.000001. -/
theorem c5_truncation_counterexample :
    computeCost (PriceMeters.mk (some (19/10000)) none none)
        (CostInput.mk "eastus" "m" (some 1) none none)
      = Except.ok (2/1000000) ∧
    truncate6 ((1 : ℚ)/1000 * (19/10000) + 0/1000 * 0) = 1/1000000 ∧
    (2/1000000 : ℚ) ≠ 1/1000000 :=
  ⟨by decide, by decide, by decide⟩

/-- C5 amended: when the meters define an input price, the cost is
(promptTokens/1000)·inputUsd + (completionTokens/1000)·outputUsd with 0 for
any missing count or missing output price, rounded to the NEAREST 6-decimal
value (JS `toFixed(6)`, ties upward), not truncated. -/
theorem c5_text_cost_amended (m : PriceMeters) (i : CostInput) (p : ℚ)
    (h : m.inputUsd = some p) :
    computeCost m i = Except.ok (toFixed6 ((i.promptTokens.getD 0) / 1000 * p
      + (i.completionTokens.getD 0) / 1000 * (m.outputUsd.getD 0))) := by
  unfold computeCost
  rw [h]
  simp

/-- C5 witness: the round-trip example — meters 0.03/0.06, 500 prompt and
200 completion tokens, cost 0.027. -/
theorem c5_text_cost_amended_witness :
    computeCost (PriceMeters.mk (some (3/100)) (some (6/100)) none)
        (CostInput.mk "eastus" "gpt-4" (some 500) (some 200) none)
      = Except.ok (27/1000) :=
  (c5_text_cost_amended (PriceMeters.mk (some (3/100)) (some (6/100)) none)
    (CostInput.mk "eastus" "gpt-4" (some 500) (some 200) none) (3/100) rfl).trans (by decide)

/-- C6 counterexample: the image-shape cost is rounded to 6 decimals before
returning, so it is not always `imageCount × imageUsd`: a raw image price
of 0.00001 normalizes to imageUsd 10⁻⁷, and the cost for one image is then
rounded to 0, not 10⁻⁷. -/
theorem c6_image_rounding_counterexample :
    fetchPricing [RawItem.mk (some "DALL-E Image") (some "DALL-E") (some (1/100000))]
      = [("dall-e", PriceMeters.mk none none (some (1/10000000)))] ∧
    computeCost (PriceMeters.mk none none (some (1/10000000)))
        (CostInput.mk "eastus" "dall-e" none none none)
      = Except.ok 0 ∧
    (0 : ℚ) ≠ 1 * (1/10000000) :=
  ⟨by decide, by decide, by decide⟩

/-- C6 amended: the normalizer stores per-image price p/100 for every
record classified as an image meter, and for meters with an image price
and no input price the cost is imageCount × imageUsd (imageCount
defaulting to 1) rounded to 6 decimals. -/
theorem c6_image_pricing_amended :
    (∀ (ms : List (String × PriceMeters)) (mn sn : String) (p : ℚ) (k : String),
      extractModelKey mn sn = some k →
      containsSub "image".data (mn.data.map Char.toLower) = true →
      processItem ms (RawItem.mk (some mn) (some sn) (some p))
        = mapSet ms k { (mapGet ms k).getD (PriceMeters.mk none none none) with
            imageUsd := some (p / 100) }) ∧
    (∀ (m : PriceMeters) (i : CostInput) (usd : ℚ),
      m.inputUsd = none → m.imageUsd = some usd →
      computeCost m i = Except.ok (toFixed6 ((i.imageCount.getD 1) * usd))) := by
  constructor
  · intro ms mn sn p k hk himg
    simp only [processItem, Option.getD_some]
    rw [hk]
    simp [himg]
  · intro m i usd h1 h2
    unfold computeCost
    rw [h1, h2]
    simp

/-- C6 witness: the raw DALL-E meter with unit price 20 normalizes to
imageUsd 0.20, and five images cost 1.0. -/
theorem c6_image_pricing_amended_witness :
    processItem [] (RawItem.mk (some "DALL-E Image") (some "DALL-E") (some 20))
      = [("dall-e", PriceMeters.mk none none (some (1/5)))] ∧
    computeCost (PriceMeters.mk none none (some (1/5)))
        (CostInput.mk "eastus" "dall-e" none none (some 5))
      = Except.ok 1 :=
  ⟨(c6_image_pricing_amended.1 [] "DALL-E Image" "DALL-E" 20 "dall-e"
      (by decide) (by decide)).trans (by decide),
   (c6_image_pricing_amended.2 (PriceMeters.mk none none (some (1/5)))
      (CostInput.mk "eastus" "dall-e" none none (some 5)) (1/5) rfl rfl).trans (by decide)⟩

/-- C7 counterexample: meters with all three prices unset do NOT raise the
unsupported-shape error — the empty shape satisfies the embedding branch's
condition and returns the number 0. -/
theorem c7_empty_meters_counterexample :
    computeCost (PriceMeters.mk none none none)
        (CostInput.mk "eastus" "x" (some 100) none none)
      = Except.ok 0 := by decide

/-- C7 amended: the UnsupportedMeterShape error is raised exactly when the
meters define ONLY an output price (inputUsd and imageUsd unset, outputUsd
set); the all-unset shape falls into the embedding branch and returns 0. -/
theorem c7_unsupported_shape_amended (m : PriceMeters) (i : CostInput) :
    (computeCost m i = Except.error (EstimateError.unsupportedInput unsupportedMsg)
      ↔ m.inputUsd = none ∧ m.imageUsd = none ∧ m.outputUsd ≠ none) ∧
    (m.inputUsd = none → m.outputUsd = none → m.imageUsd = none →
      computeCost m i = Except.ok 0) := by
  constructor
  · obtain ⟨iu, ou, gu⟩ := m
    cases iu <;> cases ou <;> cases gu <;> simp [computeCost]
  · intro h1 h2 h3
    unfold computeCost
    rw [h1, h2, h3]
    have ht : toFixed6 0 = 0 := by decide
    simp [ht]

/-- C7 witness: an output-only shape raises the error; the all-unset shape
returns 0. -/
theorem c7_unsupported_shape_amended_witness :
    computeCost (PriceMeters.mk none (some (2/100)) none)
        (CostInput.mk "eastus" "x" (some 100) (some 100) none)
      = Except.error (EstimateError.unsupportedInput unsupportedMsg) ∧
    computeCost (PriceMeters.mk none none none)
        (CostInput.mk "eastus" "x" (some 100) (some 100) none)
      = Except.ok 0 :=
  ⟨(c7_unsupported_shape_amended (PriceMeters.mk none (some (2/100)) none)
      (CostInput.mk "eastus" "x" (some 100) (some 100) none)).1.mpr ⟨rfl, rfl, by decide⟩,
   (c7_unsupported_shape_amended (PriceMeters.mk none none none)
      (CostInput.mk "eastus" "x" (some 100) (some 100) none)).2 rfl rfl rfl⟩

/-- C8: the fallback strips a leading hyphen, but the trailing-hyphen strip
never happens: the regex alternative `-\$` escapes the dollar, turning the
intended end anchor into the literal substring "-$", which cannot occur
after sanitization — so "llama!" keeps its trailing hyphen. -/
theorem c8_fallback_trailing_hyphen_bug :
    canonicalModelId "llama!" = "llama-" ∧ canonicalModelId "!llama" = "llama" :=
  ⟨rfl, rfl⟩

/-- C9 counterexample: the digits of the canonical key come from the
LEFTMOST o-family match, so a string containing both "o3" and "minimal"
need not canonicalize to "o3-mini": with an earlier "o1" the result is
"o1-mini". -/
theorem c9_leftmost_counterexample :
    canonicalModelId "o1 o3 minimal" = "o1-mini" ∧ ("o1-mini" : String) ≠ "o3-mini" :=
  ⟨rfl, by decide⟩

/-- C9 amended: whenever the o-family pattern matches (leftmost match with
digit capture `v`), the "-mini" suffix is attached exactly when the
substring "mini" occurs anywhere in the lowercased input — even inside
another word such as "minimal". -/
theorem c9_mini_suffix_amended (m : String) (v : List Char)
    (h : oFamilyScan false (m.data.map Char.toLower) = some v)
    (hm : containsSub "mini".data (m.data.map Char.toLower) = true) :
    canonicalModelId m = String.mk ('o' :: v ++ "-mini".data) := by
  show String.mk (canonicalModelIdL m.data) = String.mk ('o' :: v ++ "-mini".data)
  simp [canonicalModelIdL, h, hm]

/-- C9 witness: "o3 minimal" — the "mini" inside "minimal", far from the
matched "o3", still produces "o3-mini". -/
theorem c9_mini_suffix_amended_witness :
    canonicalModelId "o3 minimal" = "o3-mini" :=
  (c9_mini_suffix_amended "o3 minimal" ['3'] (by decide) (by decide)).trans (by decide)

theorem modelCost_region_only (ms : List (String × PriceMeters)) (r : String)
    (a b mo : String) (p c g : Option ℚ) :
    modelCost ms r (CostInput.mk a mo p c g) = modelCost ms r (CostInput.mk b mo p c g) := rfl

theorem estimateCost_region_case (ttl : Int) (F : String → List RawItem)
    (cache : List (String × CachedRegionPricing)) (now : Int) (r r2 mo : String)
    (p c g : Option ℚ) (h : lowerStr r2 = lowerStr r) :
    estimateCost ttl F cache now (CostInput.mk r2 mo p c g)
      = estimateCost ttl F cache now (CostInput.mk r mo p c g) := by
  show ((ensurePricing ttl F cache (lowerStr r2) now).1,
        (ensurePricing ttl F cache (lowerStr r2) now).2,
        modelCost ((mapGet (ensurePricing ttl F cache (lowerStr r2) now).1 (lowerStr r2)).getD
          (CachedRegionPricing.mk 0 [])).meters (lowerStr r2) (CostInput.mk r2 mo p c g))
      = ((ensurePricing ttl F cache (lowerStr r) now).1,
         (ensurePricing ttl F cache (lowerStr r) now).2,
         modelCost ((mapGet (ensurePricing ttl F cache (lowerStr r) now).1 (lowerStr r)).getD
          (CachedRegionPricing.mk 0 [])).meters (lowerStr r) (CostInput.mk r mo p c g))
  rw [h]
  rfl

/-- C10: `estimateCost` lowercases the region before every cache access:
(1) the result is unchanged when the region is replaced by its lowercased
form; (2) after a first call on an uncached region, a second call whose
region lowercases to the same key and arrives within the TTL issues no
fetch, leaves the cache untouched, and returns the very same result; and
(3) a PricingNotFound result always reports the lowercased region in its
message. -/
theorem c10_region_lowercase (ttl : Int) (F : String → List RawItem)
    (cache : List (String × CachedRegionPricing)) (now now2 : Int) (i : CostInput)
    (r2 : String) :
    (estimateCost ttl F cache now i
      = estimateCost ttl F cache now
          (CostInput.mk (lowerStr i.region) i.model i.promptTokens i.completionTokens i.imageCount)) ∧
    (lowerStr r2 = lowerStr i.region → mapGet cache (lowerStr i.region) = none →
      now2 - now < ttl →
      ∀ cache2 fetched res, estimateCost ttl F cache now i = (cache2, fetched, res) →
        estimateCost ttl F cache2 now2
            (CostInput.mk r2 i.model i.promptTokens i.completionTokens i.imageCount)
          = (cache2, false, res)) ∧
    (∀ cache2 fetched msg,
      estimateCost ttl F cache now i
        = (cache2, fetched, Except.error (EstimateError.pricingNotFound msg)) →
      msg = pricingNotFoundMsg i.model (lowerStr i.region)) := by
  obtain ⟨r0, m0, p0, c0, g0⟩ := i
  refine ⟨?_, ?_, ?_⟩
  · exact estimateCost_region_case ttl F cache now (lowerStr r0) r0 m0 p0 c0 g0
      (lowerStr_idem r0).symm
  · intro h1 h2 h3 cache2 fetched res heq
    have e1 : ensurePricing ttl F cache (lowerStr r0) now
        = (mapSet cache (lowerStr r0)
            (CachedRegionPricing.mk now (fetchPricing (F (lowerStr r0)))), true) := by
      unfold ensurePricing
      rw [h2]
    have e2 : estimateCost ttl F cache now (CostInput.mk r0 m0 p0 c0 g0)
        = (mapSet cache (lowerStr r0)
            (CachedRegionPricing.mk now (fetchPricing (F (lowerStr r0)))), true,
           modelCost (fetchPricing (F (lowerStr r0))) (lowerStr r0)
             (CostInput.mk r0 m0 p0 c0 g0)) := by
      show ((ensurePricing ttl F cache (lowerStr r0) now).1,
            (ensurePricing ttl F cache (lowerStr r0) now).2,
            modelCost ((mapGet (ensurePricing ttl F cache (lowerStr r0) now).1
                (lowerStr r0)).getD (CachedRegionPricing.mk 0 [])).meters
              (lowerStr r0) (CostInput.mk r0 m0 p0 c0 g0)) = _
      rw [e1]
      simp [mapGet_mapSet_self]
    rw [e2] at heq
    simp only [Prod.mk.injEq] at heq
    obtain ⟨hc, hf, hr⟩ := heq
    subst hc
    subst hr
    rw [estimateCost_region_case ttl F _ now2 r0 r2 m0 p0 c0 g0 h1]
    have e3 : ensurePricing ttl F (mapSet cache (lowerStr r0)
          (CachedRegionPricing.mk now (fetchPricing (F (lowerStr r0))))) (lowerStr r0) now2
        = (mapSet cache (lowerStr r0)
            (CachedRegionPricing.mk now (fetchPricing (F (lowerStr r0)))), false) := by
      unfold ensurePricing
      rw [mapGet_mapSet_self]
      simp [h3]
    show ((ensurePricing ttl F (mapSet cache (lowerStr r0)
            (CachedRegionPricing.mk now (fetchPricing (F (lowerStr r0))))) (lowerStr r0) now2).1,
          (ensurePricing ttl F (mapSet cache (lowerStr r0)
            (CachedRegionPricing.mk now (fetchPricing (F (lowerStr r0))))) (lowerStr r0) now2).2,
          modelCost ((mapGet (ensurePricing ttl F (mapSet cache (lowerStr r0)
              (CachedRegionPricing.mk now (fetchPricing (F (lowerStr r0))))) (lowerStr r0) now2).1
              (lowerStr r0)).getD (CachedRegionPricing.mk 0 [])).meters
            (lowerStr r0) (CostInput.mk r0 m0 p0 c0 g0))
        = (mapSet cache (lowerStr r0)
            (CachedRegionPricing.mk now (fetchPricing (F (lowerStr r0)))),
           false,
           modelCost (fetchPricing (F (lowerStr r0))) (lowerStr r0)
             (CostInput.mk r0 m0 p0 c0 g0))
    rw [e3]
    simp [mapGet_mapSet_self]
  · intro cache2 fetched msg heq
    have h3c := congrArg
      (fun t : List (String × CachedRegionPricing) × Bool × Except EstimateError ℚ => t.2.2) heq
    exact modelCost_notFound_msg _ _ _ _ h3c

/-- C10 witness: "EastUS", "EASTUS" and "eastus" share the one "eastus"
cache entry; the second call issues no fetch and the error message names
the lowercased region. -/
theorem c10_region_lowercase_witness :
    (estimateCost 1000 (fun _ => []) [] 0 (CostInput.mk "EastUS" "mystery-model" none none none)
      = estimateCost 1000 (fun _ => []) [] 0
          (CostInput.mk "eastus" "mystery-model" none none none)) ∧
    (estimateCost 1000 (fun _ => []) [("eastus", CachedRegionPricing.mk 0 [])] 1
        (CostInput.mk "EASTUS" "mystery-model" none none none)
      = ([("eastus", CachedRegionPricing.mk 0 [])], false,
         Except.error (EstimateError.pricingNotFound
           "Pricing for model \"mystery-model\" not found in region \"eastus\"."))) ∧
    ("Pricing for model \"mystery-model\" not found in region \"eastus\"."
      = pricingNotFoundMsg "mystery-model" (lowerStr "EastUS")) :=
  ⟨(c10_region_lowercase 1000 (fun _ => []) [] 0 0
      (CostInput.mk "EastUS" "mystery-model" none none none) "eastus").1,
   (c10_region_lowercase 1000 (fun _ => []) [] 0 1
      (CostInput.mk "EastUS" "mystery-model" none none none) "EASTUS").2.1
     (by decide) (by decide) (by decide)
     [("eastus", CachedRegionPricing.mk 0 [])] true
     (Except.error (EstimateError.pricingNotFound
       "Pricing for model \"mystery-model\" not found in region \"eastus\".")) (by decide),
   (c10_region_lowercase 1000 (fun _ => []) [] 0 0
      (CostInput.mk "EastUS" "mystery-model" none none none) "eastus").2.2
     [("eastus", CachedRegionPricing.mk 0 [])] true
     "Pricing for model \"mystery-model\" not found in region \"eastus\"." (by decide)⟩
